import Mathlib

/-
Shallow embedding of the wmediumd medium engine (src/wmediumd/wmediumd.c).

Machine integers are modelled as Nat or Int; the quantities involved
(durations in microseconds, rate indices, attempt counts) stay far below
any register width in every scenario considered, so no wrap-around is
modelled.  The stochastic ACK decision (drand48 compared against the
external error-probability table) is abstracted as a Boolean oracle
`draws : Nat -> Bool` giving, for the n-th draw performed, whether the
drawn value exceeded the error probability (the attempt succeeded).
Side effects towards the kernel (netlink messages) are modelled as an
explicit list of emissions.
-/

namespace Wmediumd

/-- Mirror of struct timespec as used by the engine: seconds and
nanoseconds, both signed as in C. -/
structure Timespec where
  sec : Int
  nsec : Int
deriving DecidableEq

/-- timespec_before from wmediumd.c, line 121. -/
def timespec_before (t1 t2 : Timespec) : Bool :=
  t1.sec < t2.sec || (t1.sec == t2.sec && t1.nsec < t2.nsec)

/-- timespec_add_usec from wmediumd.c, line 127.  All call sites pass a
nonnegative microsecond amount, so the argument is a Nat. -/
def timespec_add_usec (t : Timespec) (usec : Nat) : Timespec :=
  if t.nsec + (usec : Int) * 1000 ≥ 1000000000 then
    ⟨t.sec + 1, t.nsec + (usec : Int) * 1000 - 1000000000⟩
  else
    ⟨t.sec, t.nsec + (usec : Int) * 1000⟩

/-- Total value of a timespec in nanoseconds; timespec_add_usec preserves
this total even when it leaves nsec non-normalised. -/
def toNanos (t : Timespec) : Int :=
  t.sec * 1000000000 + t.nsec

/-- index_to_rate from wmediumd.c, line 62: rate table in hundreds of
kbit per second. -/
def index_to_rate : List Nat :=
  [60, 90, 120, 180, 240, 360, 480, 540]

/-- div_round from wmediumd.c, line 103; all uses have positive operands
so Nat division coincides with C int division. -/
def div_round (a b : Nat) : Nat :=
  (a + b - 1) / b

/-- pkt_duration from wmediumd.c, line 108: preamble + signal +
t_sym times n_sym, with rate in hundreds of kbit per second. -/
def pkt_duration (len rate : Nat) : Nat :=
  16 + 4 + 4 * div_round ((16 + 8 * len + 6) * 10) (4 * rate)

/-- Modelled from the spec: IEEE80211_TX_MAX_RATES comes from the
ieee80211 header, which is not part of the sources seen here; the spec
says the ladder has up to MAX_RATES rungs, typically 4, which is the
mac80211 value. -/
def IEEE80211_TX_MAX_RATES : Nat := 4

/-- Modelled from the spec: HWSIM_TX_STAT_ACK is declared in the missing
wmediumd.h header; the spec only requires the ACK bit to be a fixed
bit-mask inside the u32 flags field, and the mac80211_hwsim value is
bit 2. -/
def HWSIM_TX_STAT_ACK : Nat := 4

/-- Modelled from the spec: struct hwsim_tx_rate is declared in the
missing wmediumd.h header.  Per the spec a rung is a pair of a rate
index with -1 as the absent sentinel and an attempt count; both fields
are modelled as Int, keeping the literal values the source assigns. -/
structure HwsimTxRate where
  idx : Int
  count : Int
deriving DecidableEq

/-- struct frame from wmediumd.c, line 89.  The intrusive list node is
replaced by membership in a queue list; the sender back-pointer is
replaced by the sender address (the code only ever reads the address
through it). -/
structure Frame where
  expires : Timespec
  flags : Nat
  cookie : Nat
  tx_rates : List HwsimTxRate
  data_len : Nat
  data : List Nat
  sender_addr : List Nat
deriving DecidableEq

/-- struct wqueue from wmediumd.c, line 74; the intrusive frame list is
a Lean list in FIFO order (head = oldest). -/
structure Wqueue where
  frames : List Frame
  cw_min : Nat
  cw_max : Nat
deriving DecidableEq

/-- struct station from wmediumd.c, line 81. -/
structure Station where
  addr : List Nat
  data_queue : Wqueue
  mgmt_queue : Wqueue
deriving DecidableEq

/-- frame_is_mgmt from wmediumd.c, line 170: bits 2-3 of the first
frame-control byte are zero. -/
def frame_is_mgmt (data : List Nat) : Bool :=
  (data.getD 0 0) &&& 0x0c == 0

/-- is_multicast_ether_addr from wmediumd.c, line 176. -/
def is_multicast_ether_addr (addr : List Nat) : Bool :=
  (0x01 &&& addr.getD 0 0) != 0

/-- Modelled from the spec: the ieee80211 header layout comes from the
missing ieee80211.h; per the spec the engine reads addr1 of the 802.11
header, which lies at byte offset 4 (after the 2-byte frame control and
2-byte duration fields) and is 6 bytes long. -/
def ieee80211_addr1 (data : List Nat) : List Nat :=
  (data.drop 4).take 6

/-- Per-phy timing constant, queue_frame local slot_time = 9. -/
def slot_time : Nat := 9

/-- Per-phy timing constant, queue_frame local sifs = 16. -/
def sifs : Nat := 16

/-- Per-phy timing constant, queue_frame local difs = 2*slot + sifs. -/
def difs : Nat := 2 * slot_time + sifs

/-- queue_frame local ack_time_usec = pkt_duration(14, index_to_rate[0]) + sifs. -/
def ack_time_usec : Nat := pkt_duration 14 (index_to_rate.getD 0 0) + sifs

/-- Result of the attempt loop (inner for over j) of queue_frame. -/
structure AttemptResult where
  send : Nat
  cw : Nat
  retries : Nat
  j : Nat
  d : Nat
  acked : Bool
deriving DecidableEq

/-- The inner for loop of queue_frame (wmediumd.c, lines 235-262), one
rung of the ladder: k attempts remain, j is the attempt index, send the
accumulated send time, d the number of random draws made so far. -/
def attemptsGo (noack : Bool) (draws : Nat → Bool) (len rate cw_max : Nat) :
    Nat → Nat → Nat → Nat → Nat → Nat → AttemptResult
  | 0, j, send, cw, retries, d => ⟨send, cw, retries, j, d, false⟩
  | Nat.succ k, j, send, cw, retries, d =>
    if noack then
      ⟨send + difs + pkt_duration len rate, cw, retries + 1, j, d, true⟩
    else
      let send2 := if 0 < j then send + difs + pkt_duration len rate + cw * slot_time / 2
                   else send + difs + pkt_duration len rate
      let cw2 := if 0 < j then (if cw_max < (cw <<< 1) + 1 then cw_max else (cw <<< 1) + 1)
                 else cw
      if draws d then ⟨send2, cw2, retries + 1, j, d + 1, true⟩
      else attemptsGo noack draws len rate cw_max k (j + 1) (send2 + ack_time_usec) cw2
             (retries + 1) (d + 1)

/-- Result of the send-time computation of queue_frame: i and j are the
values of the C loop indices after both loops have finished (note that
on an acknowledged attempt the outer for still executes its i++ before
its condition fails). -/
structure SendResult where
  send : Nat
  cw : Nat
  retries : Nat
  i : Nat
  j : Nat
  d : Nat
  acked : Bool
deriving DecidableEq

/-- The outer for loop of queue_frame (wmediumd.c, lines 226-263) over
the rungs of the ladder. -/
def rungLoop (noack : Bool) (draws : Nat → Bool) (len cw_max : Nat) :
    List HwsimTxRate → Nat → Nat → Nat → Nat → Nat → Nat → SendResult
  | [], i, j, send, cw, retries, d => ⟨send, cw, retries, i, j, d, false⟩
  | r :: rest, i, j, send, cw, retries, d =>
    if r.idx < 0 then ⟨send, cw, retries, i, j, d, false⟩
    else
      let a := attemptsGo noack draws len (index_to_rate.getD r.idx.toNat 0) cw_max
                 r.count.toNat 0 send cw retries d
      if a.acked then ⟨a.send, a.cw, a.retries, i + 1, a.j, a.d, true⟩
      else rungLoop noack draws len cw_max rest (i + 1) a.j a.send a.cw a.retries a.d

/-- The complete send-time computation of queue_frame for one frame on
one station, starting from send_time = 0 and cw = queue cw_min. -/
def send_result (draws : Nat → Bool) (st : Station) (f : Frame) : SendResult :=
  rungLoop (frame_is_mgmt f.data || is_multicast_ether_addr (ieee80211_addr1 f.data))
    draws f.data_len
    (if frame_is_mgmt f.data then st.mgmt_queue else st.data_queue).cw_max
    f.tx_rates 0 0 0
    (if frame_is_mgmt f.data then st.mgmt_queue else st.data_queue).cw_min 0 0

/-- Helper for the ladder rewrite: the loop at wmediumd.c line 267 sets
every remaining rung to idx = -1, count = -1. -/
def clearLadder (rates : List HwsimTxRate) : List HwsimTxRate :=
  rates.map fun _ => ⟨-1, -1⟩

/-- The ladder rewrite at wmediumd.c lines 265-270: tx_rates[i].count is
set to j+1 and all rungs after position i are cleared.  When i equals
the array length the C code writes one element past the end of
tx_rates (corrupting adjacent memory); on the ladder itself that write
changes nothing, which is what this model returns. -/
def rewriteLadder : List HwsimTxRate → Nat → Int → List HwsimTxRate
  | [], _, _ => []
  | r :: rest, 0, jp1 => ⟨r.idx, jp1⟩ :: clearLadder rest
  | r :: rest, Nat.succ n, jp1 => r :: rewriteLadder rest n jp1

/-- The frame as it sits in the queue after queue_frame finished: ladder
rewritten and ACK flag set when acknowledged, expiry set to now plus the
computed send time (wmediumd.c lines 265-279). -/
def updated_frame (draws : Nat → Bool) (now : Timespec) (st : Station) (f : Frame) : Frame :=
  { f with
    tx_rates := if (send_result draws st f).acked then
        rewriteLadder f.tx_rates (send_result draws st f).i
          ((send_result draws st f).j + 1)
      else f.tx_rates,
    flags := if (send_result draws st f).acked then f.flags ||| HWSIM_TX_STAT_ACK
      else f.flags,
    expires := timespec_add_usec now (send_result draws st f).send }

/-- queue_frame restricted to one station: the frame is appended to the
tail of the management or data queue according to frame_is_mgmt
(wmediumd.c lines 216-217); since the queued frame is then mutated in
place, the model appends the final frame. -/
def queue_frame_station (draws : Nat → Bool) (now : Timespec) (st : Station) (f : Frame) :
    Station :=
  if frame_is_mgmt f.data then
    { st with mgmt_queue :=
        { st.mgmt_queue with frames := st.mgmt_queue.frames ++ [updated_frame draws now st f] } }
  else
    { st with data_queue :=
        { st.data_queue with frames := st.data_queue.frames ++ [updated_frame draws now st f] } }

/-- queue_frame from wmediumd.c, line 181, at the level of the station
registry: station si receives the frame; now is the clock_gettime
reading taken inside the call.  The trailing rearm_timer call is
modelled by the separate pure function rearm_timer below. -/
def queue_frame (draws : Nat → Bool) (now : Timespec) (stations : List Station)
    (si : Nat) (f : Frame) : List Station :=
  match stations[si]? with
  | none => stations
  | some st => stations.set si (queue_frame_station draws now st f)

/-- Modelled from the spec: list_first_entry comes from the missing
list.h header; the spec peek_head operation returns the first frame of
a queue, and the code tests the returned pointer against NULL, so the
empty queue yields none. -/
def list_first_entry (q : List Frame) : Option Frame :=
  q.head?

/-- One conditional update of the running minimum in rearm_timer
(wmediumd.c lines 153-156 and 161-164): acc none models
set_min_expires = false. -/
def consider_head (acc : Option Timespec) (fo : Option Frame) : Option Timespec :=
  match fo with
  | none => acc
  | some f =>
    match acc with
    | none => some f.expires
    | some m => if timespec_before f.expires m then some f.expires else some m

/-- The station scan of rearm_timer: for every station, look at the head
of the management queue and then the head of the data queue. -/
def min_head_expires (stations : List Station) : Option Timespec :=
  stations.foldl
    (fun acc st =>
      consider_head (consider_head acc (list_first_entry st.mgmt_queue.frames))
        (list_first_entry st.data_queue.frames))
    none

/-- rearm_timer from wmediumd.c, line 136.  The function always calls
timerfd_settime with it_value = min_expires; min_expires is a local
that is only written when some queue head exists, so when every queue
is empty the value passed is whatever was on the stack, modelled by the
extra argument uninit_min_expires.  For timerfd_settime with
TFD_TIMER_ABSTIME, an it_value equal to zero disarms the timer and any
other value arms it at that absolute time. -/
def rearm_timer (stations : List Station) (uninit_min_expires : Timespec) : Timespec :=
  (min_head_expires stations).getD uninit_min_expires

/-- A netlink message sent towards the kernel: a cloned frame
(send_cloned_frame_msg, wmediumd.c line 399, which puts rx_rate 1 and
signal -50 on the wire) or a tx info report (send_tx_info_frame_nl,
wmediumd.c line 357). -/
inductive Emission where
  | cloned (dst : List Nat) (data : List Nat) (data_len : Nat) (rx_rate : Nat) (signal : Int)
  | txinfo (src : List Nat) (flags : Nat) (signal : Int) (tx_rates : List HwsimTxRate)
      (cookie : Nat)
deriving DecidableEq

/-- The receiver loop of deliver_frame (wmediumd.c lines 294-305):
stations whose address equals the sender are skipped; a clone is sent
to a station when addr1 is multicast or equals its address. -/
def deliver_clones (src dest data : List Nat) (dlen : Nat) : List Station → List Emission
  | [] => []
  | s :: rest =>
    if s.addr == src then deliver_clones src dest data dlen rest
    else if is_multicast_ether_addr dest || s.addr == dest then
      Emission.cloned s.addr data dlen 1 (-50) :: deliver_clones src dest data dlen rest
    else deliver_clones src dest data dlen rest

/-- deliver_frame from wmediumd.c, line 283: cloned frames to matching
receivers when the ACK flag is set, then always exactly one tx info
message to the sender carrying the flags, the ladder and the cookie. -/
def deliver_frame (stations : List Station) (f : Frame) : List Emission :=
  (if f.flags &&& HWSIM_TX_STAT_ACK ≠ 0 then
    deliver_clones f.sender_addr (ieee80211_addr1 f.data) f.data f.data_len stations
  else []) ++
  [Emission.txinfo f.sender_addr f.flags 35 f.tx_rates f.cookie]

/-- The cloned emissions of a list that are addressed to a given
address. -/
def is_cloned_to (a : List Nat) : Emission → Bool
  | .cloned dst _ _ _ _ => dst == a
  | _ => false

/-- All cloned emissions addressed to a given address. -/
def clonesTo (es : List Emission) (a : List Nat) : List Emission :=
  es.filter (is_cloned_to a)

/-- deliver_expired_frames_queue from wmediumd.c, line 314, restricted
to the queue contents it leaves behind: frames are popped and delivered
from the head while the head expiry is before now; the scan stops at
the first non-expired frame. -/
def deliver_expired_frames_queue (now : Timespec) : List Frame → List Frame
  | [] => []
  | f :: rest =>
    if timespec_before f.expires now then deliver_expired_frames_queue now rest
    else f :: rest

/-- deliver_expired_frames from wmediumd.c, line 330: for every station,
drain the expired prefix of the management queue and then of the data
queue; now is the clock_gettime reading taken at the start of the
call.  Each popped frame is handed to deliver_frame and freed. -/
def deliver_expired_frames (now : Timespec) (stations : List Station) : List Station :=
  stations.map fun st =>
    { st with
      mgmt_queue := { st.mgmt_queue with
        frames := deliver_expired_frames_queue now st.mgmt_queue.frames },
      data_queue := { st.data_queue with
        frames := deliver_expired_frames_queue now st.data_queue.frames } }

/-- The frame-construction path of process_messages_cb for an incoming
HWSIM_CMD_FRAME message (wmediumd.c lines 471-511): look the sender up
by address (first match wins), build the frame carrying the payload,
flags, at most IEEE80211_TX_MAX_RATES ladder rungs and the cookie, and
queue it; an unknown sender changes nothing.  No check whatsoever is
applied to the payload length.  The expires field of a fresh frame is
uninitialised until queue_frame writes it; the placeholder zero is
never read. -/
def process_messages_cb (draws : Nat → Bool) (now : Timespec) (stations : List Station)
    (src data : List Nat) (flags : Nat) (tx_rates : List HwsimTxRate) (cookie : Nat) :
    List Station :=
  match stations.findIdx? (fun st => st.addr == src) with
  | none => stations
  | some si =>
    queue_frame draws now stations si
      { expires := ⟨0, 0⟩
        flags := flags
        cookie := cookie
        tx_rates := tx_rates.take IEEE80211_TX_MAX_RATES
        data_len := data.length
        data := data
        sender_addr := src }

/-! Concrete fixtures used by the evaluation theorems: two stations with
the queue parameters main() installs (data (15,1023), management (3,7)),
and a handful of frames. -/

/-- Oracle on which every transmission attempt succeeds. -/
def drawsTrue : Nat → Bool := fun _ => true

/-- Oracle on which every transmission attempt fails. -/
def drawsFalse : Nat → Bool := fun _ => false

/-- Address of the first station. -/
def addrA : List Nat := [2, 0, 0, 0, 0, 1]

/-- Address of the second station. -/
def addrB : List Nat := [2, 0, 0, 0, 0, 2]

/-- A 24-byte data frame (frame control 0x0008) whose addr1 is the
broadcast address. -/
def bcastData : List Nat := [8, 0, 0, 0] ++ List.replicate 6 255 ++ List.replicate 14 0

/-- A 24-byte data frame whose addr1 is addrB. -/
def uniData : List Nat := [8, 0, 0, 0] ++ addrB ++ List.replicate 14 0

/-- A 10-byte payload: shorter than the 24-byte minimum 802.11 header. -/
def shortData : List Nat := [8, 0, 0, 0] ++ addrB

/-- Station A with empty queues. -/
def stationA : Station := ⟨addrA, ⟨[], 15, 1023⟩, ⟨[], 3, 7⟩⟩

/-- Station B with empty queues. -/
def stationB : Station := ⟨addrB, ⟨[], 15, 1023⟩, ⟨[], 3, 7⟩⟩

/-- Broadcast frame from A, one rung at rate index 0 (6 Mbps). -/
def frameSlow : Frame := ⟨⟨0, 0⟩, 0, 1, [⟨0, 1⟩, ⟨-1, 0⟩, ⟨-1, 0⟩, ⟨-1, 0⟩], 24, bcastData, addrA⟩

/-- Broadcast frame from A, one rung at rate index 7 (54 Mbps). -/
def frameFast : Frame := ⟨⟨0, 0⟩, 0, 2, [⟨7, 1⟩, ⟨-1, 0⟩, ⟨-1, 0⟩, ⟨-1, 0⟩], 24, bcastData, addrA⟩

/-- Unicast data frame from A to B with a full four-rung ladder. -/
def frameUni : Frame := ⟨⟨0, 0⟩, 0, 3, [⟨0, 3⟩, ⟨1, 2⟩, ⟨2, 1⟩, ⟨3, 1⟩], 24, uniData, addrA⟩

/-- Unicast data frame from A to B whose first rung has a valid rate
index but a zero attempt count. -/
def frameZero : Frame := ⟨⟨0, 0⟩, 0, 4, [⟨0, 0⟩, ⟨-1, 0⟩, ⟨-1, 0⟩, ⟨-1, 0⟩], 24, uniData, addrA⟩

/-- Unicast data frame from A to B whose incoming flags already carry
the ACK bit. -/
def frameAck : Frame := ⟨⟨0, 0⟩, HWSIM_TX_STAT_ACK, 5, [⟨0, 1⟩, ⟨-1, 0⟩, ⟨-1, 0⟩, ⟨-1, 0⟩], 24, uniData, addrA⟩

/-- The registry after station A enqueued frameSlow at t = 0 and then
frameFast one microsecond later: both are noack broadcast data frames,
so no random draw is consumed and the outcome is deterministic. -/
def ctxAfterTwo : List Station :=
  queue_frame drawsFalse ⟨0, 1000⟩ (queue_frame drawsFalse ⟨0, 0⟩ [stationA] 0 frameSlow)
    0 frameFast

/-! Helper lemmas shared by the claim theorems. -/

/-- div_round is monotone in its dividend. -/
lemma div_round_mono_num (a1 a2 b : Nat) (h : a1 ≤ a2) : div_round a1 b ≤ div_round a2 b :=
  Nat.div_le_div_right (by omega)

/-- div_round is antitone in its divisor on positive operands. -/
lemma div_round_anti_den (a b1 b2 : Nat) (ha : 0 < a) (hb : 0 < b1) (h : b1 ≤ b2) :
    div_round a b2 ≤ div_round a b1 := by
  have hb2 : 0 < b2 := lt_of_lt_of_le hb h
  unfold div_round
  have e1 : a + b1 - 1 = (a - 1) + b1 := by omega
  have e2 : a + b2 - 1 = (a - 1) + b2 := by omega
  rw [e1, e2, Nat.add_div_right _ hb, Nat.add_div_right _ hb2]
  exact Nat.succ_le_succ (Nat.div_le_div_left h hb)

/-- pkt_duration never decreases when the length grows. -/
lemma pkt_duration_mono_len (len1 len2 rate : Nat) (h : len1 ≤ len2) :
    pkt_duration len1 rate ≤ pkt_duration len2 rate := by
  unfold pkt_duration
  have := div_round_mono_num ((16 + 8 * len1 + 6) * 10) ((16 + 8 * len2 + 6) * 10) (4 * rate)
    (by omega)
  omega

/-- pkt_duration never increases when the rate grows. -/
lemma pkt_duration_anti_rate (len r1 r2 : Nat) (h1 : 0 < r1) (h : r1 ≤ r2) :
    pkt_duration len r2 ≤ pkt_duration len r1 := by
  unfold pkt_duration
  have := div_round_anti_den ((16 + 8 * len + 6) * 10) (4 * r1) (4 * r2) (by omega) (by omega)
    (by omega)
  omega

/-- Setting the ACK bit with a bitwise or makes the ACK test succeed. -/
lemma or_ack_and_ack (x : Nat) :
    (x ||| HWSIM_TX_STAT_ACK) &&& HWSIM_TX_STAT_ACK = HWSIM_TX_STAT_ACK := by
  have h4 : HWSIM_TX_STAT_ACK = 2 ^ 2 := rfl
  rw [h4, Nat.and_two_pow]
  simp [Nat.testBit_or]
  exact Or.inr (by decide)

/-- timespec_add_usec adds exactly usec microseconds to the total
nanosecond value of the timespec. -/
lemma toNanos_add_usec (t : Timespec) (u : Nat) :
    toNanos (timespec_add_usec t u) = toNanos t + 1000 * (u : Int) := by
  unfold timespec_add_usec toNanos
  split <;> dsimp only <;> omega

/-- The receiver loop of deliver_frame emits a clone to exactly the
stations whose address differs from the sender address and whose
address matches addr1 or addr1 is multicast. -/
lemma deliver_clones_eq (src dest data : List Nat) (dlen : Nat) (stations : List Station) :
    deliver_clones src dest data dlen stations =
      (stations.filter fun s =>
          !(s.addr == src) && (is_multicast_ether_addr dest || s.addr == dest)).map
        fun s => Emission.cloned s.addr data dlen 1 (-50) := by
  induction stations with
  | nil => rfl
  | cons s rest ih =>
    cases h1 : (s.addr == src) with
    | true => simp [deliver_clones, List.filter_cons, h1, ih]
    | false =>
      cases h2 : (is_multicast_ether_addr dest || s.addr == dest) with
      | true => simp [deliver_clones, List.filter_cons, h1, h2, ih]
      | false => simp [deliver_clones, List.filter_cons, h1, h2, ih]

/-- The receiver loop of deliver_frame never clones to the sender
address itself. -/
lemma clonesTo_deliver_clones (src dest data : List Nat) (dlen : Nat)
    (stations : List Station) :
    clonesTo (deliver_clones src dest data dlen stations) src = [] := by
  induction stations with
  | nil => rfl
  | cons s rest ih =>
    cases h1 : (s.addr == src) with
    | true => simp [deliver_clones, h1, ih]
    | false =>
      cases h2 : (is_multicast_ether_addr dest || s.addr == dest) with
      | true => simp [deliver_clones, clonesTo, List.filter_cons, h1, h2, is_cloned_to]
                simpa [clonesTo] using ih
      | false => simp [deliver_clones, h1, h2, ih]

/-- No cloned emission of deliver_frame is addressed to the sender of
the delivered frame. -/
lemma clonesTo_deliver_frame (stations : List Station) (f : Frame) :
    clonesTo (deliver_frame stations f) f.sender_addr = [] := by
  unfold deliver_frame clonesTo
  rw [List.filter_append]
  have h2 : List.filter (is_cloned_to f.sender_addr)
      [Emission.txinfo f.sender_addr f.flags 35 f.tx_rates f.cookie] = [] := rfl
  rw [h2]
  split
  · have := clonesTo_deliver_clones f.sender_addr (ieee80211_addr1 f.data) f.data f.data_len
      stations
    simpa [clonesTo] using this
  · rfl

/-- queue_frame does not change the payload of the frame. -/
lemma updated_frame_data (draws : Nat → Bool) (now : Timespec) (st : Station) (f : Frame) :
    (updated_frame draws now st f).data = f.data := rfl

/-- queue_frame does not change the payload length of the frame. -/
lemma updated_frame_data_len (draws : Nat → Bool) (now : Timespec) (st : Station) (f : Frame) :
    (updated_frame draws now st f).data_len = f.data_len := rfl

/-- queue_frame does not change the sender of the frame. -/
lemma updated_frame_sender (draws : Nat → Bool) (now : Timespec) (st : Station) (f : Frame) :
    (updated_frame draws now st f).sender_addr = f.sender_addr := rfl

/-- queue_frame does not change the cookie of the frame. -/
lemma updated_frame_cookie (draws : Nat → Bool) (now : Timespec) (st : Station) (f : Frame) :
    (updated_frame draws now st f).cookie = f.cookie := rfl

/-- The expiry written by queue_frame is now plus the computed send
time. -/
lemma updated_frame_expires (draws : Nat → Bool) (now : Timespec) (st : Station) (f : Frame) :
    (updated_frame draws now st f).expires =
      timespec_add_usec now (send_result draws st f).send := rfl

/-- The accumulated send time never decreases across the attempt loop. -/
lemma attemptsGo_send_le (noack : Bool) (draws : Nat → Bool) (len rate cw_max : Nat) :
    ∀ k j send cw retries d,
      send ≤ (attemptsGo noack draws len rate cw_max k j send cw retries d).send := by
  intro k
  induction k with
  | zero => intro j send cw retries d; simp [attemptsGo]
  | succ k ih =>
    intro j send cw retries d
    by_cases hn : noack
    · simp [attemptsGo, hn]
      omega
    · rw [Bool.not_eq_true] at hn
      subst hn
      by_cases hd : draws d
      · by_cases hj : 0 < j <;> simp [attemptsGo, hd, hj, slot_time] <;> omega
      · by_cases hj : 0 < j <;> simp [attemptsGo, hd, hj, slot_time] <;>
          refine le_trans ?_ (ih _ _ _ _ _) <;> omega

/-- The first attempt of a rung with at least one attempt charges at
least difs plus the packet duration. -/
lemma attemptsGo_first (noack : Bool) (draws : Nat → Bool) (len rate cw_max : Nat)
    (k j send cw retries d : Nat) :
    send + difs + pkt_duration len rate ≤
      (attemptsGo noack draws len rate cw_max (k + 1) j send cw retries d).send := by
  by_cases hn : noack
  · simp [attemptsGo, hn]
  · rw [Bool.not_eq_true] at hn
    subst hn
    by_cases hd : draws d
    · by_cases hj : 0 < j <;> simp [attemptsGo, hd, hj, slot_time]
    · by_cases hj : 0 < j <;> simp [attemptsGo, hd, hj, slot_time] <;>
        refine le_trans ?_ (attemptsGo_send_le false draws len rate cw_max _ _ _ _ _ _) <;>
        omega

/-- The accumulated send time never decreases across the rung loop. -/
lemma rungLoop_send_le (noack : Bool) (draws : Nat → Bool) (len cw_max : Nat) :
    ∀ rates i j send cw retries d,
      send ≤ (rungLoop noack draws len cw_max rates i j send cw retries d).send := by
  intro rates
  induction rates with
  | nil => intro i j send cw retries d; simp [rungLoop]
  | cons r rest ih =>
    intro i j send cw retries d
    by_cases hidx : r.idx < 0
    · simp [rungLoop, hidx]
    · simp only [rungLoop, hidx, if_false, ite_false]
      split
      · exact attemptsGo_send_le noack draws len _ cw_max _ _ _ _ _ _
      · exact le_trans (attemptsGo_send_le noack draws len _ cw_max _ _ _ _ _ _)
          (ih _ _ _ _ _ _)

/-- A present first rung with at least one attempt charges at least difs
plus its packet duration into the final send time of the rung loop. -/
lemma rungLoop_first_rung (noack : Bool) (draws : Nat → Bool) (len cw_max : Nat)
    (r0 : HwsimTxRate) (rest : List HwsimTxRate) (i j send cw retries d : Nat)
    (hidx : ¬ r0.idx < 0) (c : Nat) (hc : r0.count.toNat = c + 1) :
    send + difs + pkt_duration len (index_to_rate.getD r0.idx.toNat 0) ≤
      (rungLoop noack draws len cw_max (r0 :: rest) i j send cw retries d).send := by
  simp only [rungLoop, hidx, ite_false, if_false]
  rw [hc]
  split
  · simpa using attemptsGo_first noack draws len (index_to_rate.getD r0.idx.toNat 0) cw_max
      c 0 send cw retries d
  · exact le_trans
      (attemptsGo_first noack draws len (index_to_rate.getD r0.idx.toNat 0) cw_max
        c 0 send cw retries d)
      (rungLoop_send_le noack draws len cw_max rest _ _ _ _ _ _)

/-! Claim theorems. -/

/-- Claim C1, evaluated on the code: after station A enqueues a slow
one-rung broadcast frame (rate index 0, send time 90 us) at t = 0 and
then a fast one (rate index 7, send time 58 us) at t = 1 us, its data
queue holds, in FIFO order, expiry times 90000 ns followed by 59000 ns,
and the second is strictly before the first; queue_frame therefore does
not keep the expiry times non-decreasing in FIFO order. -/
theorem C1_queue_monotonicity_eval :
    ctxAfterTwo.map (fun st => st.data_queue.frames.map (fun fr => fr.expires)) =
      [[⟨0, 90000⟩, ⟨0, 59000⟩]] ∧
    timespec_before ⟨0, 59000⟩ ⟨0, 90000⟩ = true := by
  constructor
  · rfl
  · rfl

/-- Claim C2, evaluated on the code: with one station and every queue
empty, rearm_timer passes its uninitialised local min_expires to
timerfd_settime unchanged, so the deadline handed to the timer is
whatever happened to be on the stack (here 77 ns or 5 ns, two runs with
different stack garbage) rather than the zero value that would disarm
the timer.  With frames queued the armed deadline does equal the
minimum head expiry (fourth conjunct, the two-frame registry of C1). -/
theorem C2_timer_eval :
    rearm_timer [stationA] ⟨0, 77⟩ = ⟨0, 77⟩ ∧
    rearm_timer [stationA] ⟨0, 5⟩ = ⟨0, 5⟩ ∧
    (⟨0, 77⟩ : Timespec) ≠ ⟨0, 0⟩ ∧
    rearm_timer ctxAfterTwo ⟨0, 77⟩ = ⟨0, 90000⟩ := by
  refine ⟨rfl, rfl, by decide, rfl⟩

/-- Claim C3, evaluated on the code: a unicast data frame with ladder
[(0,3),(1,2),(2,1),(3,1)] is acknowledged at rung 0, attempt 0 (the
oracle makes the first draw succeed), yet the emitted ladder is
[(0,3),(1,1),(-1,-1),(-1,-1)]: the count of rung 0 is left at 3, the
count j+1 = 1 lands on rung 1 whose idx stays present, and only rungs
2 and 3 are cleared.  The outer for loop increments i once more after
the inner break, so the rewrite at wmediumd.c line 266 targets rung i+1
instead of rung i.  The ACK flag itself is set. -/
theorem C3_ladder_rewrite_eval :
    (updated_frame drawsTrue ⟨0, 0⟩ stationA frameUni).tx_rates =
      [⟨0, 3⟩, ⟨1, 1⟩, ⟨-1, -1⟩, ⟨-1, -1⟩] ∧
    (updated_frame drawsTrue ⟨0, 0⟩ stationA frameUni).flags &&& HWSIM_TX_STAT_ACK ≠ 0 := by
  refine ⟨rfl, by decide⟩

/-- Claim C4, counterexample: pkt_duration is not strictly increasing in
the length (lengths 1 and 2 at table rate 540 give equal durations) and
not strictly decreasing in the rate (table rates 90 and 120 give equal
durations at length 1). -/
theorem C4_strictness_counterexample :
    (540 ∈ index_to_rate ∧ 1 < 2 ∧ ¬ pkt_duration 1 540 < pkt_duration 2 540) ∧
    (90 ∈ index_to_rate ∧ 120 ∈ index_to_rate ∧ (1 : Nat) ≤ 1 ∧ 90 < 120 ∧
      ¬ pkt_duration 1 120 < pkt_duration 1 90) := by
  decide

/-- Claim C5, evaluated on the code: an incoming frame message from the
registered station A whose payload is only 10 bytes long (shorter than
the 24-byte minimum 802.11 header) is not rejected: process_messages_cb
enqueues it and the data queue of A grows to one frame.  No payload
length check exists anywhere on the ingress path. -/
theorem C5_short_payload_eval :
    shortData.length < 24 ∧
    (process_messages_cb drawsFalse ⟨0, 0⟩ [stationA] addrA shortData 0
        [⟨0, 1⟩, ⟨-1, 0⟩, ⟨-1, 0⟩, ⟨-1, 0⟩] 7).map
      (fun st => st.data_queue.frames.length) = [1] := by
  refine ⟨by decide, rfl⟩

/-- Claim C8, evaluated on the code: in the two-frame registry of C1 the
data queue of A holds expiries [90000 ns, 59000 ns]; a timer fire at
now = 70000 ns stops at the non-expired head (90000) and leaves the
queue untouched, so the frame expiring at 59000 ns, which is before
now, survives the fire. -/
theorem C8_drain_eval :
    (deliver_expired_frames ⟨0, 70000⟩ ctxAfterTwo).map
      (fun st => st.data_queue.frames.map (fun fr => fr.expires)) =
      [[⟨0, 90000⟩, ⟨0, 59000⟩]] ∧
    timespec_before ⟨0, 59000⟩ ⟨0, 70000⟩ = true := by
  refine ⟨rfl, rfl⟩

/-- Claim C9, counterexample: a frame whose first ladder rung has a
valid rate index but count 0 makes both loops run zero attempts, so
send_time stays 0 and the expiry equals now, strictly below
now + difs + pkt_duration(len, rate_table[ladder0.idx]). -/
theorem C9_lower_bound_counterexample :
    ¬ (toNanos ⟨0, 0⟩ +
        1000 * ((difs : Int) + pkt_duration frameZero.data_len (index_to_rate.getD 0 0)) ≤
       toNanos (updated_frame drawsFalse ⟨0, 0⟩ stationA frameZero).expires) := by
  decide

/-- Claim C4, amended: for every rate of the table pkt_duration is
monotonically non-decreasing in the length, and for every length at
least 1 it is monotonically non-increasing in the rate; the strict
versions fail (see the counterexample). -/
theorem C4_pkt_duration_monotone :
    (∀ rate, rate ∈ index_to_rate → ∀ len1 len2 : Nat, len1 ≤ len2 →
      pkt_duration len1 rate ≤ pkt_duration len2 rate) ∧
    (∀ len : Nat, 1 ≤ len → ∀ r1 r2 : Nat, r1 ∈ index_to_rate → r2 ∈ index_to_rate →
      r1 ≤ r2 → pkt_duration len r2 ≤ pkt_duration len r1) := by
  have hpos : ∀ r ∈ index_to_rate, 0 < r := by decide
  constructor
  · intro rate _ len1 len2 h
    exact pkt_duration_mono_len len1 len2 rate h
  · intro len _ r1 r2 hr1 _ h
    exact pkt_duration_anti_rate len r1 r2 (hpos r1 hr1) h

/-- Witness for C4 at concrete inputs. -/
theorem C4_pkt_duration_monotone_witness :
    (60 ∈ index_to_rate ∧ (3 : Nat) ≤ 5 ∧ pkt_duration 3 60 ≤ pkt_duration 5 60) ∧
    ((1 : Nat) ≤ 1 ∧ 60 ∈ index_to_rate ∧ 540 ∈ index_to_rate ∧ (60 : Nat) ≤ 540 ∧
      pkt_duration 1 540 ≤ pkt_duration 1 60) :=
  ⟨⟨by decide, by decide, C4_pkt_duration_monotone.1 60 (by decide) 3 5 (by decide)⟩,
   ⟨by decide, by decide, by decide, by decide,
     C4_pkt_duration_monotone.2 1 (by decide) 60 540 (by decide) (by decide) (by decide)⟩⟩

/-- Claim C6: for a frame that is management or whose addr1 is
multicast, with a present first rung of count at least 1, the send-time
loop stops after exactly one attempt (retries = 1) with the frame
acknowledged, the ACK flag is set on the queued frame, and delivery
emits no cloned frame to the sender address. -/
theorem C6_noack_short_circuit (draws : Nat → Bool) (now : Timespec) (st : Station)
    (f : Frame) (stations : List Station)
    (hnk : frame_is_mgmt f.data = true ∨
      is_multicast_ether_addr (ieee80211_addr1 f.data) = true)
    (r0 : HwsimTxRate) (rest : List HwsimTxRate)
    (hr : f.tx_rates = r0 :: rest) (h0 : 0 ≤ r0.idx) (h1 : 1 ≤ r0.count) :
    (send_result draws st f).retries = 1 ∧
    (send_result draws st f).acked = true ∧
    (updated_frame draws now st f).flags &&& HWSIM_TX_STAT_ACK ≠ 0 ∧
    clonesTo (deliver_frame stations (updated_frame draws now st f)) f.sender_addr = [] := by
  have hnb : (frame_is_mgmt f.data || is_multicast_ether_addr (ieee80211_addr1 f.data))
      = true := by
    rcases hnk with h | h <;> simp [h]
  have hidx : ¬ r0.idx < 0 := by omega
  obtain ⟨c, hc⟩ : ∃ c, r0.count.toNat = c + 1 := ⟨r0.count.toNat - 1, by omega⟩
  have key : (send_result draws st f).retries = 1 ∧ (send_result draws st f).acked = true := by
    unfold send_result
    rw [hr, hnb]
    simp only [rungLoop, hidx, ite_false, if_false]
    rw [hc]
    simp [attemptsGo]
  refine ⟨key.1, key.2, ?_, ?_⟩
  · have hf : (updated_frame draws now st f).flags = f.flags ||| HWSIM_TX_STAT_ACK := by
      simp [updated_frame, key.2]
    rw [hf, or_ack_and_ack]
    decide
  · have h4 := clonesTo_deliver_frame stations (updated_frame draws now st f)
    rwa [updated_frame_sender] at h4

/-- Witness for C6: the broadcast frame frameSlow on station A, every
draw failing, registry of two stations. -/
theorem C6_noack_short_circuit_witness :
    (is_multicast_ether_addr (ieee80211_addr1 frameSlow.data) = true) ∧
    frameSlow.tx_rates = ⟨0, 1⟩ :: [⟨-1, 0⟩, ⟨-1, 0⟩, ⟨-1, 0⟩] ∧
    (0 ≤ (⟨0, 1⟩ : HwsimTxRate).idx) ∧ (1 ≤ (⟨0, 1⟩ : HwsimTxRate).count) ∧
    ((send_result drawsFalse stationA frameSlow).retries = 1 ∧
     (send_result drawsFalse stationA frameSlow).acked = true ∧
     (updated_frame drawsFalse ⟨0, 0⟩ stationA frameSlow).flags &&& HWSIM_TX_STAT_ACK ≠ 0 ∧
     clonesTo (deliver_frame [stationA, stationB]
         (updated_frame drawsFalse ⟨0, 0⟩ stationA frameSlow)) frameSlow.sender_addr = []) :=
  ⟨by decide, by decide, by decide, by decide,
    C6_noack_short_circuit drawsFalse ⟨0, 0⟩ stationA frameSlow [stationA, stationB]
      (Or.inr (by decide)) ⟨0, 1⟩ [⟨-1, 0⟩, ⟨-1, 0⟩, ⟨-1, 0⟩] (by decide) (by decide)
      (by decide)⟩

/-- Claim C7: delivery of a frame emits, when the ACK flag is set,
exactly one clone per registry station whose address differs from the
sender and matches addr1 (or addr1 is multicast), each with the fixed
rx-rate index 1 and the fixed signal -50, and in every case exactly one
trailing tx info message to the sender with the flags, the ladder and
the cookie. -/
theorem C7_deliver_frame_emissions (stations : List Station) (f : Frame) :
    deliver_frame stations f =
      (if f.flags &&& HWSIM_TX_STAT_ACK ≠ 0 then
        (stations.filter fun s =>
            !(s.addr == f.sender_addr) &&
              (is_multicast_ether_addr (ieee80211_addr1 f.data) ||
                s.addr == ieee80211_addr1 f.data)).map
          fun s => Emission.cloned s.addr f.data f.data_len 1 (-50)
      else []) ++
      [Emission.txinfo f.sender_addr f.flags 35 f.tx_rates f.cookie] := by
  unfold deliver_frame
  congr 1
  split
  · exact deliver_clones_eq _ _ _ _ _
  · rfl

/-- Claim C9, amended: for every enqueued frame whose first ladder rung
has a valid rate index (0 <= idx < 8) and count at least 1, the expiry
is at least now plus difs plus the packet duration at the first rung
rate; stated over total nanoseconds since timespec values may be
non-normalised. -/
theorem C9_expiry_lower_bound (draws : Nat → Bool) (now : Timespec) (st : Station) (f : Frame)
    (r0 : HwsimTxRate) (rest : List HwsimTxRate) (hr : f.tx_rates = r0 :: rest)
    (h0 : 0 ≤ r0.idx) (h8 : r0.idx < 8) (h1 : 1 ≤ r0.count) :
    toNanos now +
      1000 * ((difs : Int) + pkt_duration f.data_len (index_to_rate.getD r0.idx.toNat 0)) ≤
      toNanos (updated_frame draws now st f).expires := by
  have hidx : ¬ r0.idx < 0 := by omega
  obtain ⟨c, hc⟩ : ∃ c, r0.count.toNat = c + 1 := ⟨r0.count.toNat - 1, by omega⟩
  have hsend : difs + pkt_duration f.data_len (index_to_rate.getD r0.idx.toNat 0) ≤
      (send_result draws st f).send := by
    unfold send_result
    rw [hr]
    simpa using rungLoop_first_rung
      (frame_is_mgmt f.data || is_multicast_ether_addr (ieee80211_addr1 f.data)) draws
      f.data_len (if frame_is_mgmt f.data then st.mgmt_queue else st.data_queue).cw_max
      r0 rest 0 0 0 (if frame_is_mgmt f.data then st.mgmt_queue else st.data_queue).cw_min
      0 0 hidx c hc
  rw [updated_frame_expires, toNanos_add_usec]
  omega

/-- Witness for C9: the broadcast frame frameSlow enqueued at t = 0. -/
theorem C9_expiry_lower_bound_witness :
    frameSlow.tx_rates = ⟨0, 1⟩ :: [⟨-1, 0⟩, ⟨-1, 0⟩, ⟨-1, 0⟩] ∧
    (0 ≤ (⟨0, 1⟩ : HwsimTxRate).idx) ∧ ((⟨0, 1⟩ : HwsimTxRate).idx < 8) ∧
    (1 ≤ (⟨0, 1⟩ : HwsimTxRate).count) ∧
    toNanos ⟨0, 0⟩ + 1000 * ((difs : Int) +
        pkt_duration frameSlow.data_len
          (index_to_rate.getD (⟨0, 1⟩ : HwsimTxRate).idx.toNat 0)) ≤
      toNanos (updated_frame drawsFalse ⟨0, 0⟩ stationA frameSlow).expires :=
  ⟨by decide, by decide, by decide, by decide,
    C9_expiry_lower_bound drawsFalse ⟨0, 0⟩ stationA frameSlow ⟨0, 1⟩
      [⟨-1, 0⟩, ⟨-1, 0⟩, ⟨-1, 0⟩] (by decide) (by decide) (by decide) (by decide)⟩

/-- Claim C10: queue_frame never clears a bit of the incoming flags (the
outgoing flags are the incoming ones, possibly with the ACK bit
additionally set), and when the incoming flags already carry the ACK
bit, delivery emits the full clone burst to matching receivers whatever
the draws did, together with the tx info message. -/
theorem C10_flags_preserved (draws : Nat → Bool) (now : Timespec) (st : Station) (f : Frame)
    (stations : List Station) :
    ((updated_frame draws now st f).flags = f.flags ∨
      (updated_frame draws now st f).flags = f.flags ||| HWSIM_TX_STAT_ACK) ∧
    (f.flags &&& HWSIM_TX_STAT_ACK ≠ 0 →
      deliver_frame stations (updated_frame draws now st f) =
        ((stations.filter fun s =>
            !(s.addr == f.sender_addr) &&
              (is_multicast_ether_addr (ieee80211_addr1 f.data) ||
                s.addr == ieee80211_addr1 f.data)).map
          fun s => Emission.cloned s.addr f.data f.data_len 1 (-50)) ++
        [Emission.txinfo f.sender_addr (updated_frame draws now st f).flags 35
          (updated_frame draws now st f).tx_rates f.cookie]) := by
  have hcase : (updated_frame draws now st f).flags = f.flags ∨
      (updated_frame draws now st f).flags = f.flags ||| HWSIM_TX_STAT_ACK := by
    by_cases h : (send_result draws st f).acked
    · right; simp [updated_frame, h]
    · left; simp [updated_frame, h]
  refine ⟨hcase, fun hack => ?_⟩
  have hset : (updated_frame draws now st f).flags &&& HWSIM_TX_STAT_ACK ≠ 0 := by
    rcases hcase with h | h <;> rw [h]
    · exact hack
    · rw [or_ack_and_ack]; decide
  unfold deliver_frame
  rw [if_pos hset, deliver_clones_eq, updated_frame_sender, updated_frame_data,
    updated_frame_data_len, updated_frame_cookie]

/-- Witness for C10: frameAck arrives with the ACK bit already set,
every simulated attempt fails, yet delivery clones the frame to B. -/
theorem C10_flags_preserved_witness :
    frameAck.flags &&& HWSIM_TX_STAT_ACK ≠ 0 ∧
    (((updated_frame drawsFalse ⟨0, 0⟩ stationA frameAck).flags = frameAck.flags ∨
      (updated_frame drawsFalse ⟨0, 0⟩ stationA frameAck).flags =
        frameAck.flags ||| HWSIM_TX_STAT_ACK) ∧
     deliver_frame [stationA, stationB] (updated_frame drawsFalse ⟨0, 0⟩ stationA frameAck) =
       (([stationA, stationB].filter fun s =>
           !(s.addr == frameAck.sender_addr) &&
             (is_multicast_ether_addr (ieee80211_addr1 frameAck.data) ||
               s.addr == ieee80211_addr1 frameAck.data)).map
         fun s => Emission.cloned s.addr frameAck.data frameAck.data_len 1 (-50)) ++
       [Emission.txinfo frameAck.sender_addr
         (updated_frame drawsFalse ⟨0, 0⟩ stationA frameAck).flags 35
         (updated_frame drawsFalse ⟨0, 0⟩ stationA frameAck).tx_rates frameAck.cookie]) :=
  ⟨by decide,
    ⟨(C10_flags_preserved drawsFalse ⟨0, 0⟩ stationA frameAck [stationA, stationB]).1,
     (C10_flags_preserved drawsFalse ⟨0, 0⟩ stationA frameAck [stationA, stationB]).2
       (by decide)⟩⟩

end Wmediumd
